import Mathlib

/-! Verification of the plot viewport engine (`plot.go`).

A shallow embedding of the builder API, the frame callback and the auto-fit,
pan/zoom and tick-planning code of `plot.go`, and theorems about it.

Number model:

* `float64` is modelled by `F64`: a value is `nan`, `ninf` (-Inf), `pinf`
  (+Inf) or `fin q` for a rational `q`.  Arithmetic on finite values is
  exact: the rounding of binary64, its overflow to an infinity and its
  underflow to zero are not modelled.  The special values follow IEEE-754.
  Zero is unsigned and behaves as `+0`.
* `int` is modelled by `Int` (pixel coordinates stay far from the 64-bit
  limits).
* The mouse-wheel delta is read as a whole number of notches, so that
  `math.Pow(1.1, -wheelY)` is the rational `(11/10) ^ (-wheelY)`.

The theorems are limited to what does not rest on that exactness: the code
run at inputs where every intermediate value is the one binary64 computes (up
to the representation of a decimal such as 0.2), statements about order only,
and statements about the special values and about zero.  Identities between
computed values that binary64 meets only up to rounding are not stated.
-/

namespace Plot

/-! ## float64 -/

/-- Model of a `float64` value. -/
inductive F64 where
  | nan : F64
  | ninf : F64
  | pinf : F64
  | fin (q : ℚ) : F64
  deriving DecidableEq, Repr

namespace F64

/-- Floating-point negation `-a`. -/
def neg : F64 → F64
  | nan => nan
  | ninf => pinf
  | pinf => ninf
  | fin a => fin (-a)

/-- Floating-point addition `a + b`. -/
def add : F64 → F64 → F64
  | nan, _ => nan
  | ninf, nan => nan
  | ninf, ninf => ninf
  | ninf, pinf => nan
  | ninf, fin _ => ninf
  | pinf, nan => nan
  | pinf, ninf => nan
  | pinf, pinf => pinf
  | pinf, fin _ => pinf
  | fin _, nan => nan
  | fin _, ninf => ninf
  | fin _, pinf => pinf
  | fin a, fin b => fin (a + b)

/-- Floating-point subtraction `a - b`. -/
def sub (a b : F64) : F64 := add a (neg b)

/-- Product of an infinity (`pos` tells its sign) with `b`. -/
def mulInf (pos : Bool) : F64 → F64
  | nan => nan
  | ninf => if pos then ninf else pinf
  | pinf => if pos then pinf else ninf
  | fin b =>
    if b = 0 then nan
    else if (0 < b) = pos then pinf else ninf

/-- Floating-point multiplication `a * b`. -/
def mul : F64 → F64 → F64
  | nan, _ => nan
  | ninf, b => mulInf false b
  | pinf, b => mulInf true b
  | fin _, nan => nan
  | fin a, ninf => mulInf false (fin a)
  | fin a, pinf => mulInf true (fin a)
  | fin a, fin b => fin (a * b)

/-- Floating-point division `a / b`. -/
def div : F64 → F64 → F64
  | nan, _ => nan
  | ninf, nan => nan
  | ninf, ninf => nan
  | ninf, pinf => nan
  | ninf, fin b => if 0 ≤ b then ninf else pinf
  | pinf, nan => nan
  | pinf, ninf => nan
  | pinf, pinf => nan
  | pinf, fin b => if 0 ≤ b then pinf else ninf
  | fin _, nan => nan
  | fin _, ninf => fin 0
  | fin _, pinf => fin 0
  | fin a, fin b =>
    if b = 0 then
      if a = 0 then nan else if 0 < a then pinf else ninf
    else fin (a / b)

/-- Floating-point comparison `a < b` (false whenever a `nan` is involved). -/
def lt : F64 → F64 → Bool
  | nan, _ => false
  | ninf, nan => false
  | ninf, ninf => false
  | ninf, pinf => true
  | ninf, fin _ => true
  | pinf, _ => false
  | fin _, nan => false
  | fin _, ninf => false
  | fin _, pinf => true
  | fin a, fin b => decide (a < b)

/-- Floating-point comparison `a > b`. -/
def gt (a b : F64) : Bool := lt b a

/-- Floating-point comparison `a <= b` (false whenever a `nan` is involved). -/
def le : F64 → F64 → Bool
  | nan, _ => false
  | ninf, nan => false
  | ninf, ninf => true
  | ninf, pinf => true
  | ninf, fin _ => true
  | pinf, pinf => true
  | pinf, _ => false
  | fin _, nan => false
  | fin _, ninf => false
  | fin _, pinf => true
  | fin a, fin b => decide (a ≤ b)

/-- The conversion `float64(n)` of an `int`. -/
def ofInt (n : Int) : F64 := fin (n : ℚ)

/-- A value that is neither `nan` nor an infinity. -/
def isFinite : F64 → Bool
  | fin _ => true
  | _ => false

end F64

/-- Source `isInf`: `math.IsInf(x, 1) || math.IsInf(x, -1)`. -/
def isInf (x : F64) : Bool := x == F64.pinf || x == F64.ninf

/-! ## Data model -/

/-- Source `Graph`: one series (the colour plays no part in the geometry). -/
structure Graph where
  x : List F64
  y : List F64
  deriving DecidableEq, Repr

/-- Source `Plotter`: the persisted session state.  The embedded
`draw.Window` is passed separately as a `Window` snapshot. -/
structure Plotter where
  fullscreen : Bool
  dragging : Bool
  dragX : Int
  dragY : Int
  minX : F64
  maxX : F64
  minY : F64
  maxY : F64
  graphs : List Graph
  deriving DecidableEq, Repr

/-- What one frame reads from the embedded `draw.Window`: `Size()`,
`MousePosition()`, `IsMouseDown(LeftButton)`, `MouseWheelY()` and
`WasKeyPressed` for the three keys the frame callback asks about. -/
structure Window where
  width : Int
  height : Int
  mouseX : Int
  mouseY : Int
  leftDown : Bool
  wheelY : Int
  keyEscape : Bool
  keyF11 : Bool
  keyR : Bool
  deriving DecidableEq, Repr

/-- Source `transformer`. -/
structure transformer where
  minX : F64
  minY : F64
  xRange : F64
  yRange : F64
  xToScreen : F64
  yToScreen : F64
  xFromScreen : F64
  yFromScreen : F64
  height : Int
  deriving DecidableEq, Repr

/-! ## Viewport transform -/

/-- Source `Plotter.newTransformer`. -/
def newTransformer (p : Plotter) (win : Window) : transformer :=
  let xRange := F64.sub p.maxX p.minX
  let yRange := F64.sub p.maxY p.minY
  let w := F64.ofInt (win.width - 1)
  let h := F64.ofInt (win.height - 1)
  let xToScreen := F64.div w xRange
  let yToScreen := F64.div h yRange
  let xFromScreen := F64.div (F64.fin 1) xToScreen
  let yFromScreen := F64.div (F64.fin 1) yToScreen
  { minX := p.minX
    minY := p.minY
    xRange := xRange
    yRange := yRange
    xToScreen := xToScreen
    yToScreen := yToScreen
    xFromScreen := xFromScreen
    yFromScreen := yFromScreen
    height := win.height }

/-- Source `transformer.fromScreen`. -/
def fromScreen (t : transformer) (screenX screenY : Int) : F64 × F64 :=
  (F64.add t.minX (F64.mul (F64.ofInt screenX) t.xFromScreen),
   F64.add t.minY (F64.mul (F64.ofInt (t.height - 1 - screenY)) t.yFromScreen))

/-! ## Auto-fit (`drawGraphs`, the block under `if isInf(p.minX)`) -/

/-- Body of the loop `for _, x := range g.x`. -/
def scanX (p : Plotter) (x : F64) : Plotter :=
  let p1 := if F64.lt x p.minX then { p with minX := x } else p
  if F64.gt x p1.maxX then { p1 with maxX := x } else p1

/-- Body of the loop `for _, y := range g.y`. -/
def scanY (p : Plotter) (y : F64) : Plotter :=
  let p1 := if F64.lt y p.minY then { p with minY := y } else p
  if F64.gt y p1.maxY then { p1 with maxY := y } else p1

/-- Body of the loop `for _, g := range p.graphs`. -/
def scanGraph (p : Plotter) (g : Graph) : Plotter :=
  g.y.foldl scanY (g.x.foldl scanX p)

/-- The auto-fit step of `drawGraphs`. -/
def autoFit (p : Plotter) : Plotter :=
  if isInf p.minX then
    let p0 := { p with minX := F64.pinf, maxX := F64.ninf, minY := F64.pinf, maxY := F64.ninf }
    let p1 := p0.graphs.foldl scanGraph p0
    let xMargin :=
      if F64.lt p1.minX p1.maxX then F64.div (F64.sub p1.maxX p1.minX) (F64.fin 10)
      else F64.fin 1
    let p2 := { p1 with minX := F64.sub p1.minX xMargin, maxX := F64.add p1.maxX xMargin }
    let yMargin :=
      if F64.lt p2.minY p2.maxY then F64.div (F64.sub p2.maxY p2.minY) (F64.fin 10)
      else F64.fin 1
    { p2 with minY := F64.sub p2.minY yMargin, maxY := F64.add p2.maxY yMargin }
  else p

/-! ## Interaction (`drawGraphs`) -/

/-- The drag-state update at the top of `drawGraphs`. -/
def updateDragging (p : Plotter) (win : Window) : Plotter :=
  if win.leftDown then
    if !p.dragging then { p with dragX := win.mouseX, dragY := win.mouseY, dragging := true }
    else p
  else { p with dragging := false }

/-- The x-synthesis loop of `drawGraphs` for one series. -/
def synthesizeX (g : Graph) : Graph :=
  if g.x.length = 0 then
    { g with x := (List.range g.y.length).map (fun (i : Nat) => F64.ofInt (i : Int)) }
  else g

/-- The drag step of `drawGraphs` ("Drag the view with the mouse"). -/
def dragStep (p : Plotter) (win : Window) (t : transformer) (validXRange : Bool) :
    Plotter × transformer :=
  if p.dragging && validXRange then
    let screenDx := p.dragX - win.mouseX
    let screenDy := win.mouseY - p.dragY
    if screenDx ≠ 0 ∨ screenDy ≠ 0 then
      let dx := F64.mul (F64.ofInt screenDx) t.xFromScreen
      let dy := F64.mul (F64.ofInt screenDy) t.yFromScreen
      let p1 := { p with
        minX := F64.add p.minX dx
        maxX := F64.add p.maxX dx
        minY := F64.add p.minY dy
        maxY := F64.add p.maxY dy
        dragX := win.mouseX
        dragY := win.mouseY }
      (p1, newTransformer p1 win)
    else (p, t)
  else (p, t)

/-- The call `math.Pow(1.1, -wheelY)` for a whole wheel delta. -/
def zoomScale (wheelY : Int) : F64 := F64.fin ((11 / 10 : ℚ) ^ (-wheelY))

/-- The wheel-zoom step of `drawGraphs` ("Zoom with the mouse wheel"). -/
def zoomStep (p : Plotter) (win : Window) (t : transformer) (validXRange : Bool) :
    Plotter × transformer :=
  let wheelY := win.wheelY
  if wheelY ≠ 0 ∧ validXRange = true then
    let m := fromScreen t win.mouseX win.mouseY
    let scale := zoomScale wheelY
    let newXRange := F64.mul t.xRange scale
    let newYRange := F64.mul t.yRange scale
    let p1 := { p with maxX := F64.add p.minX newXRange, maxY := F64.add p.minY newYRange }
    let t1 := newTransformer p1 win
    let m2 := fromScreen t1 win.mouseX win.mouseY
    let dx := F64.sub m.1 m2.1
    let dy := F64.sub m.2 m2.2
    let p2 := { p1 with
      minX := F64.add p1.minX dx
      maxX := F64.add p1.maxX dx
      minY := F64.add p1.minY dy
      maxY := F64.add p1.maxY dy }
    (p2, newTransformer p2 win)
  else (p, t)

/-- The state-changing part of `drawGraphs`, up to "Draw the axes": the
final session state and the transformer everything is drawn with. -/
def drawGraphs (p : Plotter) (win : Window) : Plotter × transformer :=
  let p1 := updateDragging p win
  let p2 := { p1 with graphs := p1.graphs.map synthesizeX }
  let p3 := autoFit p2
  let t := newTransformer p3 win
  let validXRange := !isInf p3.minX
  let r := dragStep p3 win t validXRange
  zoomStep r.1 win r.2 validXRange

/-! ## Tick planner -/

/-- The loop `for steps < 1` of `calcStepsAndPrecision`; `fuel` bounds
the number of times the loop condition is tested. -/
def scaleDownLoop : Nat → F64 → F64 → Int → Option (F64 × Int)
  | 0, _, _, _ => none
  | fuel + 1, steps, scale, prec =>
    if F64.lt steps (F64.fin 1) then
      scaleDownLoop fuel (F64.mul steps (F64.fin 10)) (F64.div scale (F64.fin 10)) (prec + 1)
    else some (scale, prec)

/-- The loop `for steps > 1` of `calcStepsAndPrecision`. -/
def scaleUpLoop : Nat → F64 → F64 → Option F64
  | 0, _, _ => none
  | fuel + 1, steps, scale =>
    if F64.gt steps (F64.fin 1) then
      scaleUpLoop fuel (F64.div steps (F64.fin 10)) (F64.mul scale (F64.fin 10))
    else some scale

/-- The refinement at the end of `calcStepsAndPrecision`. -/
def refine (theRange scale : F64) : F64 :=
  let scale1 :=
    if F64.lt (F64.div theRange scale) (F64.fin 5) then F64.mul scale (F64.fin (1/2))
    else scale
  if F64.gt (F64.div theRange scale1) (F64.fin 15) then F64.mul scale1 (F64.fin 2)
  else scale1

/-- The first part of `calcStepsAndPrecision`: `steps := theRange / 10`,
`scale := 1`, `prec := 0` and the two scaling loops; the result is
`(scale, prec)`, or `none` when a loop is still running after `fuel` tests
of its condition. -/
def scaleLoops (fuel : Nat) (theRange : F64) : Option (F64 × Int) :=
  let steps := F64.div theRange (F64.fin 10)
  let scale := F64.fin 1
  let prec : Int := 0
  if F64.lt steps (F64.fin 1) then scaleDownLoop fuel steps scale prec
  else (scaleUpLoop fuel steps scale).map (fun s => (s, prec))

/-- Source `calcStepsAndPrecision`: the scaling loops, then the refinement;
`none` when a loop is still running after `fuel` tests of its condition. -/
def calcStepsAndPrecision (fuel : Nat) (theRange : F64) : Option (F64 × Int) :=
  (scaleLoops fuel theRange).map (fun r => (refine theRange r.1, r.2))

/-! ## Builder API and frame callback -/

/-- A failure of the builder API: the two `panic` calls of the source. -/
inductive Panic where
  | invalidXY : Panic
  | invalidType : Panic
  deriving DecidableEq, Repr

/-- An argument of type `any` handed to the builder API: a slice of floats
(`[]float64`, `[]float32`), a slice of one of the ten integer types, or a
value of any other type. -/
inductive Numbers where
  | floats (v : List F64) : Numbers
  | integers (v : List Int) : Numbers
  | other : Numbers
  deriving DecidableEq, Repr

/-- Source `cast`: the conversion to `[]float64`, element by element. -/
def cast : Numbers → Except Panic (List F64)
  | Numbers.floats v => Except.ok v
  | Numbers.integers v => Except.ok (v.map F64.ofInt)
  | Numbers.other => Except.error Panic.invalidType

/-- The graph made by `Plotter.New`, before any setter is called. -/
def newGraph : Graph := { x := [], y := [] }

/-- Source `Graph.X`. -/
def Graph.X (g : Graph) (x : Numbers) : Except Panic Graph :=
  match cast x with
  | Except.ok v => Except.ok { g with x := v }
  | Except.error e => Except.error e

/-- Source `Graph.Y`. -/
def Graph.Y (g : Graph) (y : Numbers) : Except Panic Graph :=
  match cast y with
  | Except.ok v => Except.ok { g with y := v }
  | Except.error e => Except.error e

/-- Source `Graph.XY`: the elements at even places go to `x`, those at odd
places to `y`; an odd length panics. -/
def Graph.XY (g : Graph) (xy : Numbers) : Except Panic Graph :=
  match cast xy with
  | Except.ok xys =>
    if xys.length % 2 ≠ 0 then Except.error Panic.invalidXY
    else
      Except.ok { g with
        x := (List.range (xys.length / 2)).map (fun i => xys.getD (i * 2) (F64.fin 0))
        y := (List.range (xys.length / 2)).map (fun i => xys.getD (i * 2 + 1) (F64.fin 0)) }
  | Except.error e => Except.error e

/-- One call of the builder API on a graph. -/
inductive BuilderCall where
  | X (v : Numbers) : BuilderCall
  | Y (v : Numbers) : BuilderCall
  | XY (v : Numbers) : BuilderCall
  deriving DecidableEq, Repr

/-- The effect of one builder call. -/
def applyCall (g : Graph) : BuilderCall → Except Panic Graph
  | BuilderCall.X v => Graph.X g v
  | BuilderCall.Y v => Graph.Y g v
  | BuilderCall.XY v => Graph.XY g v

/-- A chain of builder calls on a graph, stopped by the first panic. -/
def applyCalls : Graph → List BuilderCall → Except Panic Graph
  | g, [] => Except.ok g
  | g, c :: cs =>
    match applyCall g c with
    | Except.ok g1 => applyCalls g1 cs
    | Except.error e => Except.error e

/-- The indices the polyline loop of `drawGraphs` reads are in bounds: it
reads `g.x[i]` and `g.y[i]` for every `i < len(g.x)`. -/
def polylineInBounds (g : Graph) : Bool := decide (g.x.length ≤ g.y.length)

/-- Source `Plotter.SetFullscreen`. -/
def Plotter.SetFullscreen (p : Plotter) (f : Bool) : Plotter :=
  { p with fullscreen := f, dragging := false }

/-- Source `Plotter.ResetRanges`. -/
def Plotter.ResetRanges (p : Plotter) : Plotter :=
  { p with
    minX := F64.pinf
    maxX := F64.ninf
    minY := F64.pinf
    maxY := F64.ninf
    dragging := false }

/-- Source `Plotter.reset` (the deferred callback is not modelled). -/
def Plotter.reset (p : Plotter) : Plotter := { p with graphs := [] }

/-- The F11 handling of the frame callback of `Plot`:
`if window.WasKeyPressed(draw.KeyF11) { p.fullscreen = !p.fullscreen }`. -/
def handleF11 (p : Plotter) (win : Window) : Plotter :=
  if win.keyF11 then { p with fullscreen := !p.fullscreen } else p

/-- The frame callback of `Plot`; `plot` is the caller's function, which
fills in the series. On Escape the window closes and nothing changes. The
call `window.SetFullscreen(p.fullscreen)` acts on the window only; what the
frame then reads from the window is the snapshot `win`. -/
def frame (plot : Plotter → Plotter) (p : Plotter) (win : Window) : Plotter :=
  if win.keyEscape then p
  else
    let p1 := handleF11 p win
    let p2 := if win.keyR then Plotter.ResetRanges p1 else p1
    let p3 := plot (Plotter.reset p2)
    (drawGraphs p3 win).1

/-! ## Proof-side helpers -/

/-- One step of the running minimum kept by the auto-fit scan. -/
def minStep (m x : F64) : F64 := if F64.lt x m then x else m

/-- One step of the running maximum kept by the auto-fit scan. -/
def maxStep (m x : F64) : F64 := if F64.gt x m then x else m

/-- All x values of a list of series, in scan order. -/
def allX : List Graph → List F64
  | [] => []
  | g :: gs => g.x ++ allX gs

/-- All y values of a list of series, in scan order. -/
def allY : List Graph → List F64
  | [] => []
  | g :: gs => g.y ++ allY gs

/-- A rectangle with four finite bounds, `minX < maxX` and `minY < maxY`. -/
def positiveSpans (p : Plotter) : Bool :=
  F64.isFinite p.minX && F64.isFinite p.maxX && F64.isFinite p.minY && F64.isFinite p.maxY &&
    F64.lt p.minX p.maxX && F64.lt p.minY p.maxY

/-! ## Concrete inputs -/

/-- The first series of `example/main.go`. -/
def exampleGraph1 : Graph :=
  { x := [F64.fin (-1 / 2), F64.fin (-1 / 10), F64.fin 2]
    y := [F64.fin (-1), F64.fin 1, F64.fin (-1)] }

/-- The second series of `example/main.go`, with its synthesized x. -/
def exampleGraph2 : Graph :=
  { x := [F64.fin 0, F64.fin 1, F64.fin 2, F64.fin 3]
    y := [F64.fin 10, F64.fin (-10), F64.fin 10, F64.fin (-10)] }

/-- A session showing `[0, 799] x [0, 599]`, dragged from the pixel (10, 10). -/
def exampleSet : Plotter :=
  { fullscreen := false, dragging := true, dragX := 10, dragY := 10
    minX := F64.fin 0, maxX := F64.fin 799, minY := F64.fin 0, maxY := F64.fin 599
    graphs := [exampleGraph1, exampleGraph2] }

/-- The 800x600 window of `Plot`, the mouse at (20, 30) with the left button
held and the wheel turned by one notch. -/
def exampleWindow : Window :=
  { width := 800, height := 600, mouseX := 20, mouseY := 30, leftDown := true, wheelY := 1
    keyEscape := false, keyF11 := false, keyR := false }

/-- A session whose rectangle has `minX = maxX = 1e17` around the single
point (1e17, 0): the rectangle binary64 leaves after the auto-fit of that
point, since `1e17 - 1` and `1e17 + 1` both round to `1e17`. -/
def exampleZeroSpan : Plotter :=
  { fullscreen := false, dragging := false, dragX := 0, dragY := 0
    minX := F64.fin (10 ^ 17), maxX := F64.fin (10 ^ 17)
    minY := F64.fin (-1), maxY := F64.fin 1
    graphs := [{ x := [F64.fin (10 ^ 17)], y := [F64.fin 0] }] }

/-- A session right after `ResetRanges` with no series at all. -/
def exampleNoData : Plotter :=
  { fullscreen := false, dragging := false, dragX := 0, dragY := 0
    minX := F64.pinf, maxX := F64.ninf, minY := F64.pinf, maxY := F64.ninf
    graphs := [] }

/-- The 800x600 window with F11 pressed while the left button is held, the
mouse at (20, 30) and the wheel at rest. -/
def f11Window : Window :=
  { width := 800, height := 600, mouseX := 20, mouseY := 30, leftDown := true, wheelY := 0
    keyEscape := false, keyF11 := true, keyR := false }

/-- A caller's function that plots the two series of the example. -/
def examplePlot (p : Plotter) : Plotter :=
  { p with graphs := p.graphs ++ [exampleGraph1, exampleGraph2] }

/-! ## Basic facts about the number model -/

@[simp] theorem F64.add_fin (a b : ℚ) : F64.add (F64.fin a) (F64.fin b) = F64.fin (a + b) := rfl

@[simp] theorem F64.neg_fin (a : ℚ) : F64.neg (F64.fin a) = F64.fin (-a) := rfl

@[simp] theorem F64.sub_fin (a b : ℚ) : F64.sub (F64.fin a) (F64.fin b) = F64.fin (a - b) := by
  simp [F64.sub, sub_eq_add_neg]

@[simp] theorem F64.mul_fin (a b : ℚ) : F64.mul (F64.fin a) (F64.fin b) = F64.fin (a * b) := rfl

theorem F64.div_fin (a b : ℚ) (hb : b ≠ 0) :
    F64.div (F64.fin a) (F64.fin b) = F64.fin (a / b) := by
  simp [F64.div, hb]

@[simp] theorem F64.lt_fin (a b : ℚ) : F64.lt (F64.fin a) (F64.fin b) = decide (a < b) := rfl

@[simp] theorem F64.gt_fin (a b : ℚ) : F64.gt (F64.fin a) (F64.fin b) = decide (b < a) := rfl

@[simp] theorem F64.ofInt_eq (n : Int) : F64.ofInt n = F64.fin (n : ℚ) := rfl

@[simp] theorem isInf_fin (a : ℚ) : isInf (F64.fin a) = false := by
  simp [isInf]

/-! ## Auto-fit -/

theorem scanX_fields (p : Plotter) (x : F64) :
    (scanX p x).minX = minStep p.minX x ∧ (scanX p x).maxX = maxStep p.maxX x ∧
    (scanX p x).minY = p.minY ∧ (scanX p x).maxY = p.maxY ∧
    (scanX p x).graphs = p.graphs ∧ (scanX p x).dragging = p.dragging ∧
    (scanX p x).dragX = p.dragX ∧ (scanX p x).dragY = p.dragY ∧
    (scanX p x).fullscreen = p.fullscreen := by
  unfold scanX minStep maxStep
  by_cases h1 : F64.lt x p.minX = true <;> by_cases h2 : F64.gt x p.maxX = true <;>
    simp [h1, h2]

theorem scanY_fields (p : Plotter) (y : F64) :
    (scanY p y).minY = minStep p.minY y ∧ (scanY p y).maxY = maxStep p.maxY y ∧
    (scanY p y).minX = p.minX ∧ (scanY p y).maxX = p.maxX ∧
    (scanY p y).graphs = p.graphs ∧ (scanY p y).dragging = p.dragging ∧
    (scanY p y).dragX = p.dragX ∧ (scanY p y).dragY = p.dragY ∧
    (scanY p y).fullscreen = p.fullscreen := by
  unfold scanY minStep maxStep
  by_cases h1 : F64.lt y p.minY = true <;> by_cases h2 : F64.gt y p.maxY = true <;>
    simp [h1, h2]

theorem foldl_scanX_fields (xs : List F64) (p : Plotter) :
    (xs.foldl scanX p).minX = xs.foldl minStep p.minX ∧
    (xs.foldl scanX p).maxX = xs.foldl maxStep p.maxX ∧
    (xs.foldl scanX p).minY = p.minY ∧ (xs.foldl scanX p).maxY = p.maxY ∧
    (xs.foldl scanX p).graphs = p.graphs ∧ (xs.foldl scanX p).dragging = p.dragging ∧
    (xs.foldl scanX p).dragX = p.dragX ∧ (xs.foldl scanX p).dragY = p.dragY ∧
    (xs.foldl scanX p).fullscreen = p.fullscreen := by
  induction xs generalizing p with
  | nil => simp
  | cons x xs ih =>
    obtain ⟨h1, h2, h3, h4, h5, h6, h7, h8, h9⟩ := scanX_fields p x
    obtain ⟨i1, i2, i3, i4, i5, i6, i7, i8, i9⟩ := ih (scanX p x)
    simp only [List.foldl_cons]
    rw [i1, i2, i3, i4, i5, i6, i7, i8, i9, h1, h2, h3, h4, h5, h6, h7, h8, h9]
    simp

theorem foldl_scanY_fields (ys : List F64) (p : Plotter) :
    (ys.foldl scanY p).minY = ys.foldl minStep p.minY ∧
    (ys.foldl scanY p).maxY = ys.foldl maxStep p.maxY ∧
    (ys.foldl scanY p).minX = p.minX ∧ (ys.foldl scanY p).maxX = p.maxX ∧
    (ys.foldl scanY p).graphs = p.graphs ∧ (ys.foldl scanY p).dragging = p.dragging ∧
    (ys.foldl scanY p).dragX = p.dragX ∧ (ys.foldl scanY p).dragY = p.dragY ∧
    (ys.foldl scanY p).fullscreen = p.fullscreen := by
  induction ys generalizing p with
  | nil => simp
  | cons y ys ih =>
    obtain ⟨h1, h2, h3, h4, h5, h6, h7, h8, h9⟩ := scanY_fields p y
    obtain ⟨i1, i2, i3, i4, i5, i6, i7, i8, i9⟩ := ih (scanY p y)
    simp only [List.foldl_cons]
    rw [i1, i2, i3, i4, i5, i6, i7, i8, i9, h1, h2, h3, h4, h5, h6, h7, h8, h9]
    simp

/-- The scan over all series keeps the running minimum and maximum of all x
values and of all y values, and touches nothing else. -/
theorem foldl_scanGraph_fields (gs : List Graph) (p : Plotter) :
    (gs.foldl scanGraph p).minX = (allX gs).foldl minStep p.minX ∧
    (gs.foldl scanGraph p).maxX = (allX gs).foldl maxStep p.maxX ∧
    (gs.foldl scanGraph p).minY = (allY gs).foldl minStep p.minY ∧
    (gs.foldl scanGraph p).maxY = (allY gs).foldl maxStep p.maxY ∧
    (gs.foldl scanGraph p).graphs = p.graphs ∧ (gs.foldl scanGraph p).dragging = p.dragging ∧
    (gs.foldl scanGraph p).dragX = p.dragX ∧ (gs.foldl scanGraph p).dragY = p.dragY ∧
    (gs.foldl scanGraph p).fullscreen = p.fullscreen := by
  induction gs generalizing p with
  | nil => simp [allX, allY]
  | cons g gs ih =>
    obtain ⟨i1, i2, i3, i4, i5, i6, i7, i8, i9⟩ := ih (scanGraph p g)
    obtain ⟨y1, y2, y3, y4, y5, y6, y7, y8, y9⟩ := foldl_scanY_fields g.y (g.x.foldl scanX p)
    obtain ⟨x1, x2, x3, x4, x5, x6, x7, x8, x9⟩ := foldl_scanX_fields g.x p
    simp only [List.foldl_cons, allX, allY, List.foldl_append]
    rw [i1, i2, i3, i4, i5, i6, i7, i8, i9]
    unfold scanGraph
    rw [y1, y2, y3, y4, y5, y6, y7, y8, y9, x1, x2, x3, x4, x5, x6, x7, x8, x9]
    simp

/-- The refinement on a finite span and a non-zero finite scale. -/
theorem refine_fin (q sc : ℚ) (hsc : sc ≠ 0) :
    refine (F64.fin q) (F64.fin sc) =
      F64.fin (if q / sc < 5 then
          (if 15 < q / (sc * (1 / 2)) then sc * (1 / 2) * 2 else sc * (1 / 2))
        else (if 15 < q / sc then sc * 2 else sc)) := by
  have h2 : sc * (1 / 2) ≠ 0 := mul_ne_zero hsc (by norm_num)
  unfold refine
  by_cases h5 : q / sc < 5
  · by_cases h15 : 15 < q / (sc * (1 / 2))
    · simp only [F64.div_fin _ _ hsc, F64.lt_fin, h5, decide_True, if_true, F64.mul_fin,
        F64.div_fin _ _ h2, F64.gt_fin, h15]
    · simp only [F64.div_fin _ _ hsc, F64.lt_fin, h5, decide_True, if_true, F64.mul_fin,
        F64.div_fin _ _ h2, F64.gt_fin, h15, decide_False, Bool.false_eq_true, if_false]
  · by_cases h15 : 15 < q / sc
    · simp only [F64.div_fin _ _ hsc, F64.lt_fin, h5, decide_False, Bool.false_eq_true,
        if_false, F64.gt_fin, h15, decide_True, if_true, F64.mul_fin]
    · simp only [F64.div_fin _ _ hsc, F64.lt_fin, h5, decide_False, Bool.false_eq_true,
        if_false, F64.gt_fin, h15]

/-- The tick planner on a span of 7, for every amount of fuel. -/
theorem calcStepsAndPrecision_seven_eval (fuel : ℕ) :
    calcStepsAndPrecision fuel (F64.fin 7) =
      if fuel < 2 then none else some (F64.fin (1 / 5), 1) := by
  have h10 : (10 : ℚ) ≠ 0 := by norm_num
  have h1 : (1 / 10 : ℚ) ≠ 0 := by norm_num
  have hs : F64.div (F64.fin 7) (F64.fin 10) = F64.fin (7 / 10) := F64.div_fin _ _ h10
  have hr : refine (F64.fin 7) (F64.fin (1 / 10)) = F64.fin (1 / 5) := by
    rw [refine_fin _ _ h1]
    norm_num
  match fuel with
  | 0 => simp [calcStepsAndPrecision, scaleLoops, scaleDownLoop, scaleUpLoop, hs]
  | 1 =>
    simp only [calcStepsAndPrecision, scaleLoops, scaleDownLoop, hs, F64.lt_fin]
    norm_num
  | n + 2 =>
    have e : F64.div (F64.fin 1) (F64.fin 10) = F64.fin (1 / 10) := F64.div_fin _ _ h10
    have l1 : decide ((7 / 10 : ℚ) < 1) = true := by
      rw [decide_eq_true_eq]
      norm_num
    have l2 : decide ((7 / 10 * 10 : ℚ) < 1) = false := by
      rw [decide_eq_false_iff_not]
      norm_num
    simp only [calcStepsAndPrecision, scaleLoops, scaleDownLoop, hs, F64.lt_fin, l1, l2,
      F64.mul_fin, e, if_true, Bool.false_eq_true, if_false, Option.map_some', hr, zero_add]
    simp

/-- The tick planner on a span of 50, for every amount of fuel. -/
theorem calcStepsAndPrecision_fifty_eval (fuel : ℕ) :
    calcStepsAndPrecision fuel (F64.fin 50) =
      if fuel < 2 then none else some (F64.fin 10, 0) := by
  have h10 : (10 : ℚ) ≠ 0 := by norm_num
  have hs : F64.div (F64.fin 50) (F64.fin 10) = F64.fin 5 := by
    rw [F64.div_fin _ _ h10]
    norm_num
  have hr : refine (F64.fin 50) (F64.fin 10) = F64.fin 10 := by
    rw [refine_fin _ _ h10]
    norm_num
  match fuel with
  | 0 => simp [calcStepsAndPrecision, scaleLoops, scaleDownLoop, scaleUpLoop, hs]
  | 1 =>
    simp only [calcStepsAndPrecision, scaleLoops, scaleUpLoop, hs, F64.lt_fin, F64.gt_fin]
    norm_num
  | n + 2 =>
    have e : F64.div (F64.fin 5) (F64.fin 10) = F64.fin (1 / 2) := by
      rw [F64.div_fin _ _ h10]
      norm_num
    have l0 : decide ((5 : ℚ) < 1) = false := by
      rw [decide_eq_false_iff_not]
      norm_num
    have l1 : decide ((1 : ℚ) < 5) = true := by
      rw [decide_eq_true_eq]
      norm_num
    have l2 : decide ((1 : ℚ) < 1 / 2) = false := by
      rw [decide_eq_false_iff_not]
      norm_num
    have l3 : ((1 : ℚ) * 10) = 10 := by norm_num
    simp only [calcStepsAndPrecision, scaleLoops, scaleUpLoop, hs, F64.lt_fin, F64.gt_fin, l0,
      l1, l2, l3, F64.mul_fin, e, if_true, Bool.false_eq_true, if_false, Option.map_some', hr]
    simp

/-- C8. Evaluation of the tick planner at the span 7 named by the claim: it
returns the step 1/5 with precision 1, so that span/step is 35, which is not
at most 15. -/
theorem calcStepsAndPrecision_seven (n : ℕ) :
    calcStepsAndPrecision (n + 2) (F64.fin 7) = some (F64.fin (1 / 5), 1) ∧
    F64.div (F64.fin 7) (F64.fin (1 / 5)) = F64.fin 35 ∧
    F64.le (F64.div (F64.fin 7) (F64.fin (1 / 5))) (F64.fin 15) = false := by
  have h5 : (1 / 5 : ℚ) ≠ 0 := by norm_num
  have hd : F64.div (F64.fin 7) (F64.fin (1 / 5)) = F64.fin 35 := by
    rw [F64.div_fin _ _ h5]
    norm_num
  refine ⟨?_, hd, ?_⟩
  · rw [calcStepsAndPrecision_seven_eval]
    simp
  · rw [hd]
    simp only [F64.le, decide_eq_false_iff_not]
    norm_num

/-- C9 (as stated, refuted). The tick planner never returns the step 5 for
the span 50, whatever the fuel and the precision. -/
theorem calcStepsAndPrecision_fifty_not_five :
    ¬ ∃ (fuel : ℕ) (prec : Int),
      calcStepsAndPrecision fuel (F64.fin 50) = some (F64.fin 5, prec) := by
  rintro ⟨fuel, prec, h⟩
  rw [calcStepsAndPrecision_fifty_eval] at h
  by_cases hf : fuel < 2
  · simp [hf] at h
  · simp only [hf, if_false, Option.some.injEq, Prod.mk.injEq, F64.fin.injEq] at h
    norm_num at h

/-- C9 (amended). For the span 50 the tick planner returns the step 10 with
precision 0 (the test `50/10 < 5` fails, so the scale is not halved), which
gives span/step = 5. -/
theorem calcStepsAndPrecision_fifty (n : ℕ) :
    calcStepsAndPrecision (n + 2) (F64.fin 50) = some (F64.fin 10, 0) ∧
    F64.div (F64.fin 50) (F64.fin 10) = F64.fin 5 := by
  have h10 : (10 : ℚ) ≠ 0 := by norm_num
  constructor
  · rw [calcStepsAndPrecision_fifty_eval]
    simp
  · rw [F64.div_fin _ _ h10]
    norm_num

/-! ## Auto-fit: containment -/

/-- The loop `for steps < 1` never exits on `steps = 0`. -/
theorem scaleDownLoop_zero (fuel : ℕ) : ∀ (sc : F64) (prec : Int),
    scaleDownLoop fuel (F64.fin 0) sc prec = none := by
  induction fuel with
  | zero => intro sc prec; rfl
  | succ n ih =>
    intro sc prec
    have h : decide ((0 : ℚ) < 1) = true := by
      rw [decide_eq_true_eq]
      norm_num
    simp only [scaleDownLoop, F64.lt_fin, h, if_true, F64.mul_fin, zero_mul]
    exact ih _ _

/-- C19. The tick planner once `steps` is 0, the value binary64 gives
`theRange / 10` for the span 5e-324: `steps *= 10` leaves 0, the condition
`steps < 1` holds at every test, and the function returns nothing, whatever
the number of tests allowed. -/
theorem calcStepsAndPrecision_zero_steps :
    F64.mul (F64.fin 0) (F64.fin 10) = F64.fin 0 ∧
    F64.lt (F64.fin 0) (F64.fin 1) = true ∧
    (∀ (fuel : ℕ) (scale : F64) (prec : Int),
      scaleDownLoop fuel (F64.fin 0) scale prec = none) ∧
    (∀ fuel : ℕ, calcStepsAndPrecision fuel (F64.fin 0) = none) := by
  have h10 : (10 : ℚ) ≠ 0 := by norm_num
  refine ⟨by simp, by simp, fun fuel scale prec => scaleDownLoop_zero fuel scale prec, ?_⟩
  intro fuel
  simp [calcStepsAndPrecision, scaleLoops, F64.div_fin _ _ h10, scaleDownLoop_zero]

/-! ## Builder API: de-interleaving, synthesized x, lengths -/

theorem updateDragging_fields (p : Plotter) (win : Window) :
    (updateDragging p win).graphs = p.graphs ∧ (updateDragging p win).minX = p.minX ∧
    (updateDragging p win).maxX = p.maxX ∧ (updateDragging p win).minY = p.minY ∧
    (updateDragging p win).maxY = p.maxY ∧ (updateDragging p win).fullscreen = p.fullscreen := by
  unfold updateDragging
  split_ifs <;> simp

theorem autoFit_graphs (p : Plotter) : (autoFit p).graphs = p.graphs := by
  unfold autoFit
  split_ifs
  · exact (foldl_scanGraph_fields p.graphs
      { p with minX := F64.pinf, maxX := F64.ninf, minY := F64.pinf, maxY := F64.ninf }).2.2.2.2.1
  · rfl

theorem dragStep_graphs (p : Plotter) (win : Window) (t : transformer) (v : Bool) :
    (dragStep p win t v).1.graphs = p.graphs := by
  simp only [dragStep]
  split_ifs <;> rfl

theorem zoomStep_graphs (p : Plotter) (win : Window) (t : transformer) (v : Bool) :
    (zoomStep p win t v).1.graphs = p.graphs := by
  simp only [zoomStep]
  split_ifs <;> rfl

theorem drawGraphs_graphs (p : Plotter) (win : Window) :
    (drawGraphs p win).1.graphs = p.graphs.map synthesizeX := by
  unfold drawGraphs
  simp only [zoomStep_graphs, dragStep_graphs, autoFit_graphs, (updateDragging_fields p win).1]

/-- C14. Synthesized x: a series whose x is empty and whose y has `n`
elements gets `x = [0, 1, ..., n-1]` (its y untouched), a series whose x is
non-empty is left unchanged, and this is what `drawGraphs` does to every
series; `y = [10, -10, 10, -10]` gives `x = [0, 1, 2, 3]`. -/
theorem synthesizeX_spec (g : Graph) :
    (g.x = [] →
      (synthesizeX g).y = g.y ∧ (synthesizeX g).x.length = g.y.length ∧
      ∀ i, i < g.y.length → (synthesizeX g).x[i]? = some (F64.fin (i : ℚ))) ∧
    (g.x ≠ [] → synthesizeX g = g) ∧
    (∀ (p : Plotter) (win : Window), (drawGraphs p win).1.graphs = p.graphs.map synthesizeX) ∧
    synthesizeX { x := [], y := [F64.fin 10, F64.fin (-10), F64.fin 10, F64.fin (-10)] }
      = { x := [F64.fin 0, F64.fin 1, F64.fin 2, F64.fin 3]
          y := [F64.fin 10, F64.fin (-10), F64.fin 10, F64.fin (-10)] } := by
  refine ⟨?_, ?_, drawGraphs_graphs, ?_⟩
  · intro hx
    have h0 : g.x.length = 0 := by simp [hx]
    refine ⟨?_, ?_, ?_⟩
    · simp only [synthesizeX, h0, if_true]
    · simp only [synthesizeX, h0, if_true, List.length_map, List.length_range]
    · intro i hi
      simp only [synthesizeX, h0, if_true, List.getElem?_map, List.getElem?_range hi,
        Option.map_some', F64.ofInt_eq, Int.cast_natCast]
  · intro hx
    have h0 : ¬ (g.x.length = 0) := by
      intro h
      exact hx (List.length_eq_zero.1 h)
    simp only [synthesizeX, h0, if_false]
  · simp [synthesizeX, List.range_succ]

/-- C14 at the second series of the example, given by its y only. -/
theorem synthesizeX_spec_witness :
    (synthesizeX { x := [], y := [F64.fin 10, F64.fin (-10), F64.fin 10, F64.fin (-10)] }).x.length
      = 4 :=
  ((synthesizeX_spec
    { x := [], y := [F64.fin 10, F64.fin (-10), F64.fin 10, F64.fin (-10)] }).1 rfl).2.1

/-! ### Lengths of x and y -/

/-- C15. Evaluation at the chain `X([1,2,3]).Y([1,2])` of builder calls: it
succeeds and leaves, after the x synthesis, an x of length 3 and a y of
length 2, so that the polyline loop reads `g.y[2]` out of bounds. -/
theorem builder_lengths_differ :
    ∃ g : Graph,
      applyCalls newGraph
        [BuilderCall.X (Numbers.integers [1, 2, 3]), BuilderCall.Y (Numbers.integers [1, 2])]
        = Except.ok g ∧
      (synthesizeX g).x.length = 3 ∧ (synthesizeX g).y.length = 2 ∧
      (synthesizeX g).x.length ≠ (synthesizeX g).y.length ∧
      polylineInBounds (synthesizeX g) = false :=
  ⟨_, rfl, rfl, rfl, by decide, by decide⟩

/-! ## The no-data frame -/

theorem allX_allY_nil (gs : List Graph) (h : ∀ g ∈ gs, g.x = [] ∧ g.y = []) :
    allX (gs.map synthesizeX) = [] ∧ allY (gs.map synthesizeX) = [] := by
  induction gs with
  | nil => exact ⟨rfl, rfl⟩
  | cons g gs ih =>
    obtain ⟨hx, hy⟩ := h g (List.mem_cons_self _ _)
    obtain ⟨i1, i2⟩ := ih (fun g' hg' => h g' (List.mem_cons_of_mem _ hg'))
    have hs : synthesizeX g = { x := [], y := [] } := by
      cases g with
      | mk x y =>
        simp only at hx hy
        subst hx
        subst hy
        rfl
    simp only [List.map_cons, allX, allY, hs, i1, i2, List.append_nil, and_self]

/-- The auto-fit step without any value: the rectangle stays at the
sentinels. -/
theorem autoFit_empty (p : Plotter) (hunset : isInf p.minX = true)
    (hnoX : allX p.graphs = []) (hnoY : allY p.graphs = []) :
    autoFit p =
      { p with minX := F64.pinf, maxX := F64.ninf, minY := F64.pinf, maxY := F64.ninf } := by
  obtain ⟨s1, s2, s3, s4, s5, s6, s7, s8, s9⟩ := foldl_scanGraph_fields p.graphs
    { p with minX := F64.pinf, maxX := F64.ninf, minY := F64.pinf, maxY := F64.ninf }
  simp only [hnoX, hnoY, List.foldl_nil] at s1 s2 s3 s4 s5 s6 s7 s8 s9
  unfold autoFit
  simp only [hunset, if_true, s1, s2, s3, s4]
  cases hfold : List.foldl scanGraph
    { p with minX := F64.pinf, maxX := F64.ninf, minY := F64.pinf, maxY := F64.ninf } p.graphs with
  | mk f1 f2 f3 f4 f5 f6 f7 f8 f9 =>
    rw [hfold] at s5 s6 s7 s8 s9
    simp only at s5 s6 s7 s8 s9
    subst s5 s6 s7 s8 s9
    simp [F64.lt, F64.sub, F64.add, F64.neg]

/-- The transformer of the sentinel rectangle. -/
theorem newTransformer_sentinel (p : Plotter) (win : Window)
    (h1 : p.minX = F64.pinf) (h2 : p.maxX = F64.ninf)
    (h3 : p.minY = F64.pinf) (h4 : p.maxY = F64.ninf) :
    newTransformer p win =
      { minX := F64.pinf, minY := F64.pinf, xRange := F64.ninf, yRange := F64.ninf
        xToScreen := F64.fin 0, yToScreen := F64.fin 0
        xFromScreen := F64.pinf, yFromScreen := F64.pinf, height := win.height } := by
  simp [newTransformer, h1, h2, h3, h4, F64.sub, F64.add, F64.neg, F64.div]

/-- C16 (as stated, refuted). With zero series and an unset rectangle the
auto-fit step leaves the rectangle at the sentinels `+Inf`, `-Inf`: it is not
a finite rectangle with positive spans, and the forward factors of the
transformer built from it are zero. -/
theorem autoFit_no_data_no_fallback :
    (autoFit exampleNoData).minX = F64.pinf ∧ (autoFit exampleNoData).maxX = F64.ninf ∧
    (autoFit exampleNoData).minY = F64.pinf ∧ (autoFit exampleNoData).maxY = F64.ninf ∧
    positiveSpans (autoFit exampleNoData) = false ∧
    (newTransformer (autoFit exampleNoData) exampleWindow).xToScreen = F64.fin 0 ∧
    (newTransformer (autoFit exampleNoData) exampleWindow).yToScreen = F64.fin 0 ∧
    F64.isFinite (newTransformer (autoFit exampleNoData) exampleWindow).xFromScreen = false ∧
    F64.isFinite (newTransformer (autoFit exampleNoData) exampleWindow).yFromScreen = false := by
  have h : autoFit exampleNoData = exampleNoData := by
    rw [autoFit_empty exampleNoData rfl rfl rfl]
    rfl
  rw [h, newTransformer_sentinel exampleNoData exampleWindow rfl rfl rfl rfl]
  exact ⟨rfl, rfl, rfl, rfl, rfl, rfl, rfl, rfl, rfl⟩

/-- C16 (amended). For a frame with zero series, or only empty series, and an
unset rectangle: after the auto-fit step the rectangle is still at the
sentinels (`minX = minY = +Inf`, `maxX = maxY = -Inf`), the transformer built
from it has zero forward factors and infinite inverse factors, the range is
not valid, so the drag step and the zoom step change nothing, and the frame
ends with the rectangle still unset. -/
theorem no_data_frame (p : Plotter) (win : Window) (hunset : isInf p.minX = true)
    (hempty : ∀ g ∈ p.graphs, g.x = [] ∧ g.y = []) :
    (autoFit { p with graphs := p.graphs.map synthesizeX }).minX = F64.pinf ∧
    (autoFit { p with graphs := p.graphs.map synthesizeX }).maxX = F64.ninf ∧
    (autoFit { p with graphs := p.graphs.map synthesizeX }).minY = F64.pinf ∧
    (autoFit { p with graphs := p.graphs.map synthesizeX }).maxY = F64.ninf ∧
    (drawGraphs p win).1.minX = F64.pinf ∧ (drawGraphs p win).1.maxX = F64.ninf ∧
    (drawGraphs p win).1.minY = F64.pinf ∧ (drawGraphs p win).1.maxY = F64.ninf ∧
    (drawGraphs p win).2.xToScreen = F64.fin 0 ∧ (drawGraphs p win).2.yToScreen = F64.fin 0 ∧
    isInf (drawGraphs p win).2.xFromScreen = true ∧
    isInf (drawGraphs p win).2.yFromScreen = true := by
  obtain ⟨hX, hY⟩ := allX_allY_nil p.graphs hempty
  have hfit := autoFit_empty { p with graphs := p.graphs.map synthesizeX } hunset hX hY
  obtain ⟨u1, u2, u3, u4, u5, u6⟩ := updateDragging_fields p win
  have hfit2 := autoFit_empty
    { updateDragging p win with graphs := (updateDragging p win).graphs.map synthesizeX }
    (by simpa [u2] using hunset) (by simpa [u1] using hX) (by simpa [u1] using hY)
  have hdraw : drawGraphs p win =
      ({ updateDragging p win with
          graphs := (updateDragging p win).graphs.map synthesizeX
          minX := F64.pinf, maxX := F64.ninf, minY := F64.pinf, maxY := F64.ninf },
        newTransformer { updateDragging p win with
          graphs := (updateDragging p win).graphs.map synthesizeX
          minX := F64.pinf, maxX := F64.ninf, minY := F64.pinf, maxY := F64.ninf } win) := by
    simp only [drawGraphs, hfit2, dragStep, zoomStep, isInf]
    simp
  refine ⟨?_, ?_, ?_, ?_, ?_⟩
  · rw [hfit]
  · rw [hfit]
  · rw [hfit]
  · rw [hfit]
  · rw [hdraw, newTransformer_sentinel _ win rfl rfl rfl rfl]
    exact ⟨rfl, rfl, rfl, rfl, rfl, rfl, rfl, rfl⟩

/-- C16 (amended) at the session without series. -/
theorem no_data_frame_witness :
    (drawGraphs exampleNoData exampleWindow).1.minX = F64.pinf ∧
    (drawGraphs exampleNoData exampleWindow).1.maxX = F64.ninf ∧
    (drawGraphs exampleNoData exampleWindow).1.minY = F64.pinf ∧
    (drawGraphs exampleNoData exampleWindow).1.maxY = F64.ninf :=
  ⟨(no_data_frame exampleNoData exampleWindow rfl (by simp [exampleNoData])).2.2.2.2.1,
   (no_data_frame exampleNoData exampleWindow rfl (by simp [exampleNoData])).2.2.2.2.2.1,
   (no_data_frame exampleNoData exampleWindow rfl (by simp [exampleNoData])).2.2.2.2.2.2.1,
   (no_data_frame exampleNoData exampleWindow rfl (by simp [exampleNoData])).2.2.2.2.2.2.2.1⟩

/-! ## Fullscreen and dragging -/

/-- C17. Evaluation at a session that is dragging from the anchor (10, 10)
when F11 is pressed with the button held and the mouse at (20, 30): the F11
handling flips the fullscreen flag and leaves `dragging` set and the anchor
in place, and the frame pans the view by the distance from that old anchor
(`[0,799] x [0,599]` becomes `[-10,789] x [20,619]`); `SetFullscreen`, the
other way to change the flag, does clear `dragging`. -/
theorem handleF11_keeps_dragging :
    (handleF11 exampleSet f11Window).fullscreen = true ∧ exampleSet.fullscreen = false ∧
    (handleF11 exampleSet f11Window).dragging = true ∧
    (handleF11 exampleSet f11Window).dragX = 10 ∧ (handleF11 exampleSet f11Window).dragY = 10 ∧
    (frame examplePlot exampleSet f11Window).minX = F64.fin (-10) ∧
    (frame examplePlot exampleSet f11Window).maxX = F64.fin 789 ∧
    (frame examplePlot exampleSet f11Window).minY = F64.fin 20 ∧
    (frame examplePlot exampleSet f11Window).maxY = F64.fin 619 ∧
    (Plotter.SetFullscreen exampleSet true).dragging = false := by
  refine ⟨rfl, rfl, rfl, rfl, rfl, ?_, ?_, ?_, ?_, rfl⟩ <;>
    simp [frame, handleF11, f11Window, exampleSet, examplePlot, Plotter.reset, drawGraphs,
      updateDragging, autoFit, dragStep, zoomStep, newTransformer, F64.div, isInf] <;>
    norm_num

/-! ## A rectangle of span zero -/

/-- C18. Evaluation at the rectangle with `minX = maxX = 1e17`, which
binary64 leaves after the auto-fit of the single point (1e17, 0): the
rectangle is not `minX < maxX`, the range counts as valid, `newTransformer`
divides by the span 0 (`xToScreen` is `+Inf`), and the tick planner called
on that span returns nothing, whatever the number of tests allowed. -/
theorem newTransformer_zero_span :
    F64.lt exampleZeroSpan.minX exampleZeroSpan.maxX = false ∧
    (!isInf exampleZeroSpan.minX) = true ∧
    (newTransformer exampleZeroSpan exampleWindow).xRange = F64.fin 0 ∧
    (newTransformer exampleZeroSpan exampleWindow).xToScreen = F64.pinf ∧
    (∀ fuel : ℕ,
      calcStepsAndPrecision fuel (newTransformer exampleZeroSpan exampleWindow).xRange
        = none) := by
  have h10 : (10 : ℚ) ≠ 0 := by norm_num
  have hr : (newTransformer exampleZeroSpan exampleWindow).xRange = F64.fin 0 := by
    simp [newTransformer, exampleZeroSpan]
  refine ⟨by simp [exampleZeroSpan], by simp [exampleZeroSpan], hr, ?_, ?_⟩
  · simp [newTransformer, exampleZeroSpan, exampleWindow, F64.div]
  · intro fuel
    rw [hr]
    simp [calcStepsAndPrecision, scaleLoops, F64.div_fin _ _ h10, scaleDownLoop_zero]

end Plot
